import Mathlib

/-!
Shallow embedding of the concurrent batch-execution core of the
`us-stock-recommender` repository (`src/batch/concurrent_manager.py` and
`src/batch/progress_tracker.py`), together with theorems settling the
specification claims about it.

Modelling conventions:
* Python `float` time values and rates are modelled as `ℚ` (exact arithmetic).
* Python `int` counters that can go negative are modelled as `ℤ`; counts that
  are sizes (list lengths, attempt numbers) as `ℕ`.
* Python `dict` is modelled as an insertion-ordered association list with the
  first-match lookup/replace semantics of CPython dicts.
* Fallible Python code (raising) is modelled with `Except`.
* Wall-clock time is idealised: `time.time()` readings are explicit `ℚ`
  parameters, `time.sleep d` advances the clock by exactly `d`, and the
  `threading.Lock` around `acquire` serialises calls, so a sequence of
  `acquire` calls is a left fold over the limiter state.
-/

namespace StockBatch

/-- Opaque payload of a successful task (`Dict` in the Python source). -/
def Dict : Type := List (String × String)

instance : DecidableEq Dict := by unfold Dict; infer_instance

/-- The `ConcurrentConfig` dataclass from `concurrent_manager.py`. -/
structure ConcurrentConfig where
  max_workers : ℕ := 8
  api_rate_limit : ℚ := 2/10
  batch_size : ℕ := 10
  timeout_per_task : ℕ := 30
  max_retries : ℕ := 3
  retry_delay : ℚ := 1
deriving Repr, DecidableEq

/-- State of `APIRateLimiter`: the configured minimum interval and the
timestamp recorded by the last `acquire`. -/
structure APIRateLimiter where
  min_interval : ℚ
  last_call_time : ℚ
deriving Repr, DecidableEq

/-- Model of `APIRateLimiter.__init__`: `min_interval = 1.0 / calls_per_second if
calls_per_second > 0 else 0`, `last_call_time = 0`. -/
def APIRateLimiter.init (calls_per_second : ℚ) : APIRateLimiter :=
  { min_interval := if calls_per_second > 0 then 1 / calls_per_second else 0
    last_call_time := 0 }

/-- Model of `APIRateLimiter.acquire`, idealised: called at wall-clock time `now`,
it sleeps exactly `min_interval - (now - last_call_time)` when that gap is
positive, then records the post-sleep clock reading.  Returns the new state
and the recorded grant timestamp. -/
def APIRateLimiter.acquire (st : APIRateLimiter) (now : ℚ) :
    APIRateLimiter × ℚ :=
  let time_since_last_call := now - st.last_call_time
  let grant :=
    if time_since_last_call < st.min_interval then
      now + (st.min_interval - time_since_last_call)
    else now
  ({ st with last_call_time := grant }, grant)

/-- The grant timestamps of a serialised sequence of `acquire` calls arriving
at the given wall-clock times. -/
def APIRateLimiter.acquireAll (st : APIRateLimiter) : List ℚ → List ℚ
  | [] => []
  | t :: ts =>
    let p := st.acquire t
    p.2 :: p.1.acquireAll ts

/-- The `TaskResult` dataclass.  `duration` is dropped (pure wall-clock
bookkeeping, referenced by no claim). -/
structure TaskResult where
  symbol : String
  success : Bool
  result : Option Dict := none
  error : Option String := none
  attempts : ℕ := 1
deriving DecidableEq

/-- The Failed `TaskResult` that `_execute_task_with_retry` builds after the
retry loop exhausts all attempts. -/
def retryFailure (symbol : String) (max_retries : ℕ)
    (lastError : Option String) : TaskResult :=
  { symbol := symbol
    success := false
    error := some (lastError.getD "Unknown error")
    attempts := max_retries }

/-- The retry loop of `_execute_task_with_retry`
(`for attempt in range(1, max_retries + 1)`), started at attempt number
`attempt` with last captured error `lastErr`.  `outcomes n` is what the
opaque `task_func` does on the `n`-th attempt: `.ok d` when it returns the
dict `d`, `.error e` when it raises with message `e`. -/
def retryFrom (symbol : String) (max_retries : ℕ)
    (outcomes : ℕ → Except String Dict) (attempt : ℕ)
    (lastErr : Option String) : TaskResult :=
  if _h : max_retries < attempt then
    retryFailure symbol max_retries lastErr
  else
    match outcomes attempt with
    | .ok r =>
        { symbol := symbol, success := true, result := some r,
          attempts := attempt }
    | .error e =>
        if attempt < max_retries then
          retryFrom symbol max_retries outcomes (attempt + 1) (some e)
        else
          retryFailure symbol max_retries (some e)
termination_by max_retries + 1 - attempt

/-- Model of `ConcurrentManager._execute_task_with_retry` (result value only; the
rate-limiter interaction and sleeps are timing, the `_running_tasks`
bookkeeping touches no claim). -/
def executeTaskWithRetry (symbol : String) (max_retries : ℕ)
    (outcomes : ℕ → Except String Dict) : TaskResult :=
  retryFrom symbol max_retries outcomes 1 none

/-- What the future of one submitted wrapper call looks like when the
collection loop of `execute_concurrent` reaches it: the wrapper returned a
`TaskResult` (`done`), the wrapper itself raised (`raised` — caught by the
`try/except` around `future.result()`), or the future was still pending when
the aggregate `as_completed` deadline expired (`notDone`). -/
inductive FutureOutcome where
  | done (r : TaskResult)
  | raised (e : String)
  | notDone
deriving DecidableEq

/-- Errors `execute_concurrent` can raise: the `RuntimeError` guarding use
outside the `with` scope, and the `concurrent.futures.TimeoutError` that the
`as_completed` iterator raises when its aggregate timeout expires. -/
inductive ExecError where
  | contextError (msg : String)
  | timeoutError
deriving DecidableEq

/-- The message of the scope-misuse `RuntimeError` (no `lang_config`). -/
def contextRequiredMsg : String :=
  "ConcurrentManager must be used within a 'with' statement"

/-- The Failed `TaskResult` the collection loop synthesizes in its `except`
branch when `future.result()` re-raises a wrapper-level exception. -/
def collectionFailure (cfg : ConcurrentConfig) (symbol : String)
    (e : String) : TaskResult :=
  { symbol := symbol
    success := false
    error := some ("Task execution exception: " ++ e)
    attempts := cfg.max_retries }

/-- One step of the collection loop on an already-yielded future. -/
def collectOne (cfg : ConcurrentConfig) (p : String × FutureOutcome) :
    TaskResult :=
  match p.2 with
  | .done r => r
  | .raised e => collectionFailure cfg p.1 e
  | .notDone => collectionFailure cfg p.1 "unreachable"

/-- The `for future in as_completed(...)` collection loop of
`execute_concurrent`, folded over the futures in completion order
(`order` pairs each future's symbol with its outcome).  A future still
pending at the deadline makes the iterator raise `TimeoutError`, which no
handler in the function catches. -/
def collectLoop (cfg : ConcurrentConfig) :
    List (String × FutureOutcome) → Except ExecError (List TaskResult)
  | [] => .ok []
  | p :: rest =>
    match p.2 with
    | .notDone => .error .timeoutError
    | _ =>
      match collectLoop cfg rest with
      | .ok tail => .ok (collectOne cfg p :: tail)
      | .error e => .error e

/-- Model of `ConcurrentManager.execute_concurrent`.  `held` is whether the manager is
inside its `with` scope (`self.executor` is set); `order` lists the submitted
futures in the completion order `as_completed` yields them, each paired with
its symbol via `future_to_symbol`. -/
def executeConcurrent (held : Bool) (cfg : ConcurrentConfig)
    (order : List (String × FutureOutcome)) :
    Except ExecError (List TaskResult) :=
  if held then collectLoop cfg order
  else .error (.contextError contextRequiredMsg)

/-- Whether a result of `executeConcurrent` is the scope-misuse
`RuntimeError`. -/
def isContextError : Except ExecError (List TaskResult) → Bool
  | .error (.contextError _) => true
  | _ => false

/-- Python division, which raises `ZeroDivisionError` on a zero divisor. -/
def pyDiv (a b : ℚ) : Except String ℚ :=
  if b = 0 then .error "ZeroDivisionError: float division by zero"
  else .ok (a / b)

/-- The rate-limiter construction inside `ConcurrentManager.__init__`:
`APIRateLimiter(1.0 / self.config.api_rate_limit)`.  The division happens
before `APIRateLimiter.__init__`'s own `calls_per_second > 0` guard runs. -/
def managerInitRateLimiter (cfg : ConcurrentConfig) :
    Except String APIRateLimiter := do
  let cps ← pyDiv 1 cfg.api_rate_limit
  return APIRateLimiter.init cps

/-- Model of `create_optimized_config` from `concurrent_manager.py`. -/
def create_optimized_config (stock_count : ℕ) : ConcurrentConfig :=
  if stock_count ≤ 5 then
    { max_workers := 3, api_rate_limit := 1/10, batch_size := 5,
      timeout_per_task := 20, max_retries := 2 }
  else if stock_count ≤ 20 then
    { max_workers := 6, api_rate_limit := 15/100, batch_size := 10,
      timeout_per_task := 25, max_retries := 3 }
  else
    { max_workers := 8, api_rate_limit := 2/10, batch_size := 15,
      timeout_per_task := 30, max_retries := 3 }

/-! ### ProgressTracker (`progress_tracker.py`) -/

/-- The `AnalysisTask` dataclass (progress view of one symbol). -/
structure AnalysisTask where
  symbol : String
  status : String := "pending"
  start_time : Option ℚ := none
  end_time : Option ℚ := none
  error_message : Option String := none
  result : Option Dict := none
deriving DecidableEq

/-- The `ProgressStats` dataclass.  Counters are `ℤ`: Python ints that the
tracker increments and decrements without clamping. -/
structure ProgressStats where
  total_tasks : ℤ := 0
  completed : ℤ := 0
  failed : ℤ := 0
  running : ℤ := 0
  pending : ℤ := 0
  start_time : Option ℚ := none
deriving DecidableEq

/-- Model of `ProgressStats.success_rate`:
`0.0` when `completed + failed == 0`, else
`(completed / (completed + failed)) * 100`. -/
def ProgressStats.success_rate (st : ProgressStats) : ℚ :=
  if st.completed + st.failed = 0 then 0
  else ((st.completed : ℚ) / ((st.completed : ℚ) + (st.failed : ℚ))) * 100

/-- Insertion-ordered association list standing for the CPython `dict`
`self.tasks`: assignment to an existing key overwrites in place, assignment
to a fresh key appends. -/
def dictSet (d : List (String × AnalysisTask)) (k : String)
    (v : AnalysisTask) : List (String × AnalysisTask) :=
  if d.any (fun p => p.1 = k) then
    d.map (fun p => if p.1 = k then (k, v) else p)
  else d ++ [(k, v)]

/-- Model of `symbol in self.tasks` / `self.tasks[symbol]`. -/
def dictGet (d : List (String × AnalysisTask)) (k : String) :
    Option AnalysisTask :=
  (d.find? (fun p => p.1 = k)).map Prod.snd

/-- The `ProgressTracker` state: the task dict and the aggregate stats. -/
structure ProgressTracker where
  tasks : List (String × AnalysisTask) := []
  stats : ProgressStats := {}
deriving DecidableEq

/-- Model of `ProgressTracker.initTasks(symbols)` at wall-clock time `now`. -/
def ProgressTracker.initTasks (symbols : List String) (now : ℚ) :
    ProgressTracker :=
  { tasks := symbols.foldl
      (fun d s => dictSet d s { symbol := s }) []
    stats := { total_tasks := (symbols.length : ℤ),
               pending := (symbols.length : ℤ),
               start_time := some now } }

/-- Model of `ProgressTracker.start_task(symbol)` at wall-clock time `now`. -/
def ProgressTracker.start_task (t : ProgressTracker) (symbol : String)
    (now : ℚ) : ProgressTracker :=
  match dictGet t.tasks symbol with
  | none => t
  | some task =>
    { tasks := dictSet t.tasks symbol
        { task with status := "running", start_time := some now }
      stats := { t.stats with
        pending := t.stats.pending - 1
        running := t.stats.running + 1 } }

/-- Model of `ProgressTracker.complete_task(symbol, result)` at wall-clock `now`. -/
def ProgressTracker.complete_task (t : ProgressTracker) (symbol : String)
    (result : Dict) (now : ℚ) : ProgressTracker :=
  match dictGet t.tasks symbol with
  | none => t
  | some task =>
    { tasks := dictSet t.tasks symbol
        { task with status := "completed", end_time := some now,
                    result := some result }
      stats := { t.stats with
        running := t.stats.running - 1
        completed := t.stats.completed + 1 } }

/-- Model of `ProgressTracker.fail_task(symbol, error)` at wall-clock `now`. -/
def ProgressTracker.fail_task (t : ProgressTracker) (symbol : String)
    (error : String) (now : ℚ) : ProgressTracker :=
  match dictGet t.tasks symbol with
  | none => t
  | some task =>
    { tasks := dictSet t.tasks symbol
        { task with status := "failed", end_time := some now,
                    error_message := some error }
      stats := { t.stats with
        running := t.stats.running - 1
        failed := t.stats.failed + 1 } }

/-- Model of `ProgressTracker.get_current_stats()`: a field-by-field copy of the
stats under the lock. -/
def ProgressTracker.get_current_stats (t : ProgressTracker) :
    ProgressStats :=
  { total_tasks := t.stats.total_tasks
    completed := t.stats.completed
    failed := t.stats.failed
    running := t.stats.running
    pending := t.stats.pending
    start_time := t.stats.start_time }

/-- One mutating tracker call after initialisation (each carries the
wall-clock instant at which it runs). -/
inductive TrackerOp where
  | start (symbol : String) (now : ℚ)
  | complete (symbol : String) (result : Dict) (now : ℚ)
  | fail (symbol : String) (error : String) (now : ℚ)

/-- Apply one tracker call. -/
def applyOp (t : ProgressTracker) : TrackerOp → ProgressTracker
  | .start s now => t.start_task s now
  | .complete s r now => t.complete_task s r now
  | .fail s e now => t.fail_task s e now

/-- A serialised history of tracker calls (the `threading.Lock` makes every
interleaving equivalent to some such sequence). -/
def runOps (t : ProgressTracker) (ops : List TrackerOp) : ProgressTracker :=
  ops.foldl applyOp t

/-- The counter invariant of the spec. -/
def statsInv (st : ProgressStats) : Prop :=
  st.pending + st.running + st.completed + st.failed = st.total_tasks

instance (st : ProgressStats) : Decidable (statsInv st) := by
  unfold statsInv; infer_instance

/-! ### Claim theorems -/

/-- C8: `create_optimized_config` is a total three-tier function of the
symbol count: counts ≤ 5 give `(3, 0.1, 5, 20, 2)`, counts 6–20 give
`(6, 0.15, 10, 25, 3)`, counts > 20 give `(8, 0.2, 15, 30, 3)`; in
particular 5 symbols → `max_workers = 3`, 12 → 6, 30 → 8. -/
theorem create_optimized_config_tiers (n : ℕ) :
    (n ≤ 5 → create_optimized_config n =
      { max_workers := 3, api_rate_limit := 1/10, batch_size := 5,
        timeout_per_task := 20, max_retries := 2 }) ∧
    (6 ≤ n → n ≤ 20 → create_optimized_config n =
      { max_workers := 6, api_rate_limit := 15/100, batch_size := 10,
        timeout_per_task := 25, max_retries := 3 }) ∧
    (21 ≤ n → create_optimized_config n =
      { max_workers := 8, api_rate_limit := 2/10, batch_size := 15,
        timeout_per_task := 30, max_retries := 3 }) ∧
    (create_optimized_config 5).max_workers = 3 ∧
    (create_optimized_config 12).max_workers = 6 ∧
    (create_optimized_config 30).max_workers = 8 := by
  refine ⟨?_, ?_, ?_, by decide, by decide, by decide⟩
  · intro h
    rw [create_optimized_config, if_pos h]
  · intro h1 h2
    rw [create_optimized_config, if_neg (by omega), if_pos h2]
  · intro h
    rw [create_optimized_config, if_neg (by omega), if_neg (by omega)]

/-- Witness for C8: the three tiers evaluated at 3, 12 and 30. -/
theorem create_optimized_config_tiers_witness :
    create_optimized_config 3 =
      { max_workers := 3, api_rate_limit := 1/10, batch_size := 5,
        timeout_per_task := 20, max_retries := 2 } ∧
    create_optimized_config 12 =
      { max_workers := 6, api_rate_limit := 15/100, batch_size := 10,
        timeout_per_task := 25, max_retries := 3 } ∧
    create_optimized_config 30 =
      { max_workers := 8, api_rate_limit := 2/10, batch_size := 15,
        timeout_per_task := 30, max_retries := 3 } :=
  ⟨(create_optimized_config_tiers 3).1 (by norm_num),
   (create_optimized_config_tiers 12).2.1 (by norm_num) (by norm_num),
   (create_optimized_config_tiers 30).2.2.1 (by norm_num)⟩

/-- C6 counterexample: at `completed = 1`, `failed = 0` the code's
`success_rate` is `100`, while the claimed value `completed/(completed+failed)`
is `1`; the claimed equation is false. -/
theorem success_rate_counterexample :
    ProgressStats.success_rate { completed := 1, failed := 0 } = 100 ∧
    (ProgressStats.success_rate { completed := 1, failed := 0 } =
      (1 : ℚ) / ((1 : ℚ) + (0 : ℚ))) = False :=
  ⟨by norm_num [ProgressStats.success_rate],
   eq_false (by norm_num [ProgressStats.success_rate])⟩

/-- C6 amended: `success_rate` equals `100 * completed/(completed+failed)`
when `completed + failed ≠ 0` (a percentage, not the bare ratio), and `0`
when `completed + failed = 0` — in particular `0`, not undefined, when
`total_tasks = 0`. -/
theorem success_rate_spec (st : ProgressStats) :
    (st.completed + st.failed = 0 → st.success_rate = 0) ∧
    (st.completed + st.failed ≠ 0 →
      st.success_rate =
        ((st.completed : ℚ) / ((st.completed : ℚ) + (st.failed : ℚ))) * 100) := by
  unfold ProgressStats.success_rate
  constructor
  · intro h
    rw [if_pos h]
  · intro h
    rw [if_neg h]

/-- Witness for C6 (amended): both branches at concrete stats. -/
theorem success_rate_spec_witness :
    ProgressStats.success_rate { completed := 3, failed := 1 } = 75 ∧
    ProgressStats.success_rate {} = 0 :=
  ⟨by rw [(success_rate_spec { completed := 3, failed := 1 }).2 (by decide)]
      norm_num,
   (success_rate_spec {}).1 (by decide)⟩

/-- C9 counterexample: with `api_rate_limit = 0`, `ConcurrentManager.__init__`
evaluates `1.0 / 0` and raises `ZeroDivisionError` before
`APIRateLimiter.__init__`'s own `calls_per_second > 0` guard can run, so
construction does not succeed. -/
theorem manager_init_zero_rate_raises :
    managerInitRateLimiter { api_rate_limit := 0 } =
      Except.error "ZeroDivisionError: float division by zero" := rfl

/-- C9 amended: for every `api_rate_limit > 0`, constructing the manager
succeeds and the rate limiter's `min_interval` equals `api_rate_limit`;
at `api_rate_limit = 0` construction raises `ZeroDivisionError` instead. -/
theorem manager_init_rate_limiter_pos (cfg : ConcurrentConfig)
    (h : 0 < cfg.api_rate_limit) :
    managerInitRateLimiter cfg =
      Except.ok { min_interval := cfg.api_rate_limit, last_call_time := 0 } := by
  have h1 : (0 : ℚ) < 1 / cfg.api_rate_limit := by positivity
  unfold managerInitRateLimiter pyDiv
  rw [if_neg (ne_of_gt h)]
  show Except.ok (APIRateLimiter.init (1 / cfg.api_rate_limit)) = _
  unfold APIRateLimiter.init
  rw [if_pos h1, one_div_one_div]

/-- Witness for C9 (amended): `api_rate_limit = 1/5`. -/
theorem manager_init_rate_limiter_pos_witness :
    (0 : ℚ) < 1/5 ∧
    managerInitRateLimiter { api_rate_limit := 1/5 } =
      Except.ok { min_interval := 1/5, last_call_time := 0 } :=
  ⟨by norm_num,
   manager_init_rate_limiter_pos { api_rate_limit := 1/5 } (by norm_num)⟩

/-- One `acquire` step grants a timestamp at least `min_interval` after the
previously recorded one. -/
theorem acquire_gap (st : APIRateLimiter) (now : ℚ) :
    st.min_interval ≤ (st.acquire now).2 - st.last_call_time := by
  unfold APIRateLimiter.acquire
  by_cases hlt : now - st.last_call_time < st.min_interval
  · simp only [if_pos hlt]
    ring_nf
    linarith
  · simp only [if_neg hlt]
    linarith [not_lt.mp hlt]

/-- The step `acquire` changes only `last_call_time`, to the granted timestamp. -/
theorem acquire_state (st : APIRateLimiter) (now : ℚ) :
    (st.acquire now).1.min_interval = st.min_interval ∧
    (st.acquire now).1.last_call_time = (st.acquire now).2 :=
  ⟨rfl, rfl⟩

/-- Every adjacent pair in the serialised grant-timestamp sequence (starting
from the state's recorded timestamp) is at least `min_interval` apart. -/
theorem acquireAll_chain (st : APIRateLimiter) (times : List ℚ) :
    List.Chain (fun a b => st.min_interval ≤ b - a) st.last_call_time
      (st.acquireAll times) := by
  induction times generalizing st with
  | nil => exact List.Chain.nil
  | cons t ts ih =>
    refine List.Chain.cons (acquire_gap st t) ?_
    have h := ih (st.acquire t).1
    rw [(acquire_state st t).2] at h
    exact h

/-- C5: with `calls_per_second > 0` the limiter's `min_interval` is
`1 / calls_per_second`, and for any serialised sequence of `acquire` calls
(the internal lock serialises them) every two consecutive recorded grant
timestamps differ by at least `min_interval` (idealised exact-sleep clock
model). -/
theorem rateLimiter_consecutive_gap (calls_per_second : ℚ) (times : List ℚ)
    (h : 0 < calls_per_second) :
    (APIRateLimiter.init calls_per_second).min_interval = 1 / calls_per_second ∧
    List.Chain (fun a b => 1 / calls_per_second ≤ b - a)
      (APIRateLimiter.init calls_per_second).last_call_time
      ((APIRateLimiter.init calls_per_second).acquireAll times) := by
  have hm : (APIRateLimiter.init calls_per_second).min_interval =
      1 / calls_per_second := by
    unfold APIRateLimiter.init
    rw [if_pos h]
  refine ⟨hm, ?_⟩
  have hc := acquireAll_chain (APIRateLimiter.init calls_per_second) times
  rw [hm] at hc
  exact hc

/-- Witness for C5: two calls per second, three arrival times. -/
theorem rateLimiter_consecutive_gap_witness :
    (0 : ℚ) < 2 ∧
    ((APIRateLimiter.init 2).min_interval = 1 / 2 ∧
     List.Chain (fun a b => 1 / 2 ≤ b - a)
       (APIRateLimiter.init 2).last_call_time
       ((APIRateLimiter.init 2).acquireAll [0, 1/10, 3])) :=
  ⟨by norm_num, rateLimiter_consecutive_gap 2 [0, 1/10, 3] (by norm_num)⟩

/-- Each mutating tracker call preserves the counter invariant: it either
leaves the counters alone (unknown symbol) or moves one unit between two
counters. -/
theorem statsInv_applyOp (t : ProgressTracker) (op : TrackerOp)
    (h : statsInv t.stats) : statsInv (applyOp t op).stats := by
  unfold statsInv at h
  cases op with
  | start s now =>
    show statsInv (t.start_task s now).stats
    unfold ProgressTracker.start_task
    cases hd : dictGet t.tasks s with
    | none => exact h
    | some task => unfold statsInv; dsimp only; omega
  | complete s r now =>
    show statsInv (t.complete_task s r now).stats
    unfold ProgressTracker.complete_task
    cases hd : dictGet t.tasks s with
    | none => exact h
    | some task => unfold statsInv; dsimp only; omega
  | fail s e now =>
    show statsInv (t.fail_task s e now).stats
    unfold ProgressTracker.fail_task
    cases hd : dictGet t.tasks s with
    | none => exact h
    | some task => unfold statsInv; dsimp only; omega

/-- The invariant is preserved by any serialised history of tracker calls. -/
theorem statsInv_runOps (t : ProgressTracker) (ops : List TrackerOp)
    (h : statsInv t.stats) : statsInv (runOps t ops).stats := by
  induction ops generalizing t with
  | nil => exact h
  | cons op ops ih => exact ih (applyOp t op) (statsInv_applyOp t op h)

/-- C3: `pending + running + completed + failed = total_tasks` holds after
`initialize(symbols)` and is preserved by every `start_task`,
`complete_task` and `fail_task` (known or unknown symbol), so it holds at
every snapshot `get_current_stats` returns. -/
theorem tracker_counter_invariant (symbols : List String) (now : ℚ)
    (ops : List TrackerOp) :
    statsInv ((runOps (ProgressTracker.initTasks symbols now) ops).get_current_stats) := by
  have base : statsInv (ProgressTracker.initTasks symbols now).stats := by
    unfold statsInv ProgressTracker.initTasks
    simp
  exact statsInv_runOps _ ops base

/-- Lookup misses exactly when no entry carries the key. -/
theorem dictGet_eq_none_iff (d : List (String × AnalysisTask)) (s : String) :
    dictGet d s = none ↔ ∀ q ∈ d, ¬ (q.1 = s) := by
  unfold dictGet
  rw [Option.map_eq_none']
  rw [List.find?_eq_none]
  constructor <;> intro h q hq <;> have hx := h q hq <;> simpa using hx

/-- Every entry of `dictSet d k v` either carries key `k` or was already in
`d`. -/
theorem mem_dictSet (d : List (String × AnalysisTask)) (k : String)
    (v : AnalysisTask) (q : String × AnalysisTask)
    (hq : q ∈ dictSet d k v) : q.1 = k ∨ q ∈ d := by
  unfold dictSet at hq
  by_cases hmem : d.any (fun p => p.1 = k)
  · rw [if_pos hmem] at hq
    rcases List.mem_map.mp hq with ⟨p, hp, hpq⟩
    by_cases hpk : p.1 = k
    · rw [if_pos hpk] at hpq
      left
      rw [← hpq]
    · rw [if_neg hpk] at hpq
      right
      rw [← hpq]
      exact hp
  · rw [if_neg hmem] at hq
    rcases List.mem_append.mp hq with h1 | h1
    · right
      exact h1
    · left
      rw [List.mem_singleton.mp h1]

/-- Overwriting key `k` cannot make a lookup of an absent different key
succeed. -/
theorem dictGet_dictSet_none (d : List (String × AnalysisTask))
    (k k' : String) (v : AnalysisTask) (hk : (k' = k) = False)
    (h : dictGet d k' = none) : dictGet (dictSet d k v) k' = none := by
  rw [dictGet_eq_none_iff] at *
  intro q hq
  rcases mem_dictSet d k v q hq with h1 | h1
  · rw [h1]
    intro hc
    exact hk.mp hc.symm
  · exact h q h1

/-- A symbol absent from the task dict stays absent across any mutating
tracker call (the calls only overwrite existing keys). -/
theorem dictGet_applyOp_none (t : ProgressTracker) (op : TrackerOp)
    (s : String) (h : dictGet t.tasks s = none) :
    dictGet (applyOp t op).tasks s = none := by
  have key : ∀ (s' : String) (task v : AnalysisTask),
      dictGet t.tasks s' = some task →
      dictGet (dictSet t.tasks s' v) s = none := by
    intro s' task v hs'
    refine dictGet_dictSet_none t.tasks s' s v (eq_false ?_) h
    intro hss
    rw [hss, hs'] at h
    exact Option.noConfusion h
  cases op with
  | start s' now =>
    show dictGet (t.start_task s' now).tasks s = none
    unfold ProgressTracker.start_task
    cases hd : dictGet t.tasks s' with
    | none => exact h
    | some task => exact key s' task _ hd
  | complete s' r now =>
    show dictGet (t.complete_task s' r now).tasks s = none
    unfold ProgressTracker.complete_task
    cases hd : dictGet t.tasks s' with
    | none => exact h
    | some task => exact key s' task _ hd
  | fail s' e now =>
    show dictGet (t.fail_task s' e now).tasks s = none
    unfold ProgressTracker.fail_task
    cases hd : dictGet t.tasks s' with
    | none => exact h
    | some task => exact key s' task _ hd

/-- A symbol absent from the task dict stays absent across a whole call
history. -/
theorem dictGet_runOps_none (t : ProgressTracker) (ops : List TrackerOp)
    (s : String) (h : dictGet t.tasks s = none) :
    dictGet (runOps t ops).tasks s = none := by
  induction ops generalizing t with
  | nil => exact h
  | cons op ops ih => exact ih (applyOp t op) (dictGet_applyOp_none t op s h)

/-- A symbol not in the initialisation list is absent from the freshly
initialised task dict. -/
theorem dictGet_initTasks_none (symbols : List String) (now : ℚ)
    (s : String) (h : s ∉ symbols) :
    dictGet (ProgressTracker.initTasks symbols now).tasks s = none := by
  unfold ProgressTracker.initTasks
  dsimp only
  have hgen : ∀ (l : List String), s ∉ l →
      ∀ (d : List (String × AnalysisTask)), dictGet d s = none →
      dictGet (l.foldl (fun d s' => dictSet d s' { symbol := s' }) d) s = none := by
    intro l
    induction l with
    | nil =>
      intro _ d hd
      exact hd
    | cons x xs ih =>
      intro hl d hd
      simp only [List.foldl_cons]
      refine ih (fun hm => hl (List.mem_cons_of_mem x hm)) _ ?_
      exact dictGet_dictSet_none d x s { symbol := x }
        (eq_false (fun hsx => hl (hsx ▸ List.mem_cons_self x xs))) hd
  exact hgen symbols h [] rfl

/-- C10: calling `start_task`, `complete_task` or `fail_task` with a symbol
that was not in the list passed to `initialize` — after any history of
tracker calls — is a silent no-op: no error, and the whole tracker state
(task table, all counters, all stored task records) is unchanged. -/
theorem unknown_symbol_noop (symbols : List String) (now0 : ℚ)
    (ops : List TrackerOp) (s : String) (h : s ∉ symbols)
    (r : Dict) (e : String) (now : ℚ) :
    (runOps (ProgressTracker.initTasks symbols now0) ops).start_task s now =
      runOps (ProgressTracker.initTasks symbols now0) ops ∧
    (runOps (ProgressTracker.initTasks symbols now0) ops).complete_task s r now =
      runOps (ProgressTracker.initTasks symbols now0) ops ∧
    (runOps (ProgressTracker.initTasks symbols now0) ops).fail_task s e now =
      runOps (ProgressTracker.initTasks symbols now0) ops := by
  have hnone : dictGet (runOps (ProgressTracker.initTasks symbols now0) ops).tasks s = none :=
    dictGet_runOps_none _ ops s (dictGet_initTasks_none symbols now0 s h)
  refine ⟨?_, ?_, ?_⟩
  · unfold ProgressTracker.start_task
    rw [hnone]
  · unfold ProgressTracker.complete_task
    rw [hnone]
  · unfold ProgressTracker.fail_task
    rw [hnone]

/-- Witness for C10: a concrete unknown symbol against a two-symbol batch
with one prior call. -/
theorem unknown_symbol_noop_witness :
    "TSLA" ∉ ["AAPL", "MSFT"] ∧
    ((runOps (ProgressTracker.initTasks ["AAPL", "MSFT"] 0)
        [TrackerOp.start "AAPL" 1]).start_task "TSLA" 2 =
      runOps (ProgressTracker.initTasks ["AAPL", "MSFT"] 0)
        [TrackerOp.start "AAPL" 1] ∧
     (runOps (ProgressTracker.initTasks ["AAPL", "MSFT"] 0)
        [TrackerOp.start "AAPL" 1]).complete_task "TSLA" [] 2 =
      runOps (ProgressTracker.initTasks ["AAPL", "MSFT"] 0)
        [TrackerOp.start "AAPL" 1] ∧
     (runOps (ProgressTracker.initTasks ["AAPL", "MSFT"] 0)
        [TrackerOp.start "AAPL" 1]).fail_task "TSLA" "boom" 2 =
      runOps (ProgressTracker.initTasks ["AAPL", "MSFT"] 0)
        [TrackerOp.start "AAPL" 1]) :=
  ⟨by decide,
   unknown_symbol_noop ["AAPL", "MSFT"] 0 [TrackerOp.start "AAPL" 1] "TSLA"
     (by decide) [] "boom" 2⟩

/-- Bounds on the retry loop from any starting attempt number: the result
carries the submitted symbol; a success returns `attempts` between the
current attempt number and `max_retries`; a failure returns
`attempts = max_retries`. -/
theorem retryFrom_bounds (symbol : String) (max_retries : ℕ)
    (outcomes : ℕ → Except String Dict) (attempt : ℕ)
    (lastErr : Option String) :
    (retryFrom symbol max_retries outcomes attempt lastErr).symbol = symbol ∧
    ((retryFrom symbol max_retries outcomes attempt lastErr).success = true →
      attempt ≤ (retryFrom symbol max_retries outcomes attempt lastErr).attempts ∧
      (retryFrom symbol max_retries outcomes attempt lastErr).attempts ≤ max_retries) ∧
    ((retryFrom symbol max_retries outcomes attempt lastErr).success = false →
      (retryFrom symbol max_retries outcomes attempt lastErr).attempts = max_retries) := by
  rw [retryFrom]
  by_cases hlt : max_retries < attempt
  · rw [dif_pos hlt]
    unfold retryFailure
    exact ⟨rfl, fun hc => Bool.noConfusion hc, fun _ => rfl⟩
  · rw [dif_neg hlt]
    cases houtcome : outcomes attempt with
    | ok r =>
      exact ⟨rfl, fun _ => ⟨le_refl attempt, Nat.le_of_not_lt hlt⟩,
        fun hc => Bool.noConfusion hc⟩
    | error e =>
      dsimp only
      by_cases hlt2 : attempt < max_retries
      · rw [if_pos hlt2]
        have ih := retryFrom_bounds symbol max_retries outcomes (attempt + 1) (some e)
        exact ⟨ih.1,
          fun hs => ⟨Nat.le_of_succ_le (ih.2.1 hs).1, (ih.2.1 hs).2⟩,
          ih.2.2⟩
      · rw [if_neg hlt2]
        unfold retryFailure
        exact ⟨rfl, fun hc => Bool.noConfusion hc, fun _ => rfl⟩
termination_by max_retries + 1 - attempt

/-- C4: with `max_retries ≥ 1`, every `TaskResult` out of
`_execute_task_with_retry` has `1 ≤ attempts ≤ max_retries` when successful
and `attempts = max_retries` when failed; the Failed result the collection
loop synthesizes for a wrapper-level exception also has
`attempts = max_retries`. -/
theorem retry_attempts_bounds (cfg : ConcurrentConfig) (symbol : String)
    (outcomes : ℕ → Except String Dict) (_h : 1 ≤ cfg.max_retries) :
    ((executeTaskWithRetry symbol cfg.max_retries outcomes).success = true →
      1 ≤ (executeTaskWithRetry symbol cfg.max_retries outcomes).attempts ∧
      (executeTaskWithRetry symbol cfg.max_retries outcomes).attempts ≤ cfg.max_retries) ∧
    ((executeTaskWithRetry symbol cfg.max_retries outcomes).success = false →
      (executeTaskWithRetry symbol cfg.max_retries outcomes).attempts = cfg.max_retries) ∧
    (∀ e, (collectionFailure cfg symbol e).attempts = cfg.max_retries) := by
  have hb := retryFrom_bounds symbol cfg.max_retries outcomes 1 none
  exact ⟨hb.2.1, hb.2.2, fun e => rfl⟩

/-- Witness for C4: `max_retries = 3`, a task that fails once then
succeeds, and one that always fails. -/
theorem retry_attempts_bounds_witness :
    1 ≤ (3 : ℕ) ∧
    (((executeTaskWithRetry "AAPL" 3
        (fun n => if n = 1 then Except.error "rate limited" else Except.ok [])).success = true →
      1 ≤ (executeTaskWithRetry "AAPL" 3
        (fun n => if n = 1 then Except.error "rate limited" else Except.ok [])).attempts ∧
      (executeTaskWithRetry "AAPL" 3
        (fun n => if n = 1 then Except.error "rate limited" else Except.ok [])).attempts ≤ 3) ∧
     ((executeTaskWithRetry "AAPL" 3
        (fun n => if n = 1 then Except.error "rate limited" else Except.ok [])).success = false →
      (executeTaskWithRetry "AAPL" 3
        (fun n => if n = 1 then Except.error "rate limited" else Except.ok [])).attempts = 3) ∧
     (∀ e, (collectionFailure { max_retries := 3 } "AAPL" e).attempts = 3)) :=
  ⟨by decide,
   retry_attempts_bounds { max_retries := 3 } "AAPL"
     (fun n => if n = 1 then Except.error "rate limited" else Except.ok [])
     (by decide)⟩

/-- If every yielded future completed (normally or by raising), the
collection loop returns one `TaskResult` per future, in completion order. -/
theorem collectLoop_ok (cfg : ConcurrentConfig)
    (order : List (String × FutureOutcome))
    (hdone : ∀ p ∈ order, p.2 ≠ FutureOutcome.notDone) :
    collectLoop cfg order = Except.ok (order.map (collectOne cfg)) := by
  induction order with
  | nil => rfl
  | cons p rest ih =>
    have hrest := ih (fun q hq => hdone q (List.mem_cons_of_mem p hq))
    have hp := hdone p (List.mem_cons_self p rest)
    unfold collectLoop
    cases hout : p.2 with
    | notDone => exact absurd hout hp
    | done r =>
      dsimp only
      rw [hrest]
      rfl
    | raised e =>
      dsimp only
      rw [hrest]
      rfl

/-- If some submitted future was still pending when the aggregate deadline
expired, the collection loop raises `TimeoutError`. -/
theorem collectLoop_timeout (cfg : ConcurrentConfig)
    (order : List (String × FutureOutcome))
    (hpend : ∃ p ∈ order, p.2 = FutureOutcome.notDone) :
    collectLoop cfg order = Except.error ExecError.timeoutError := by
  induction order with
  | nil =>
    rcases hpend with ⟨p, hp, _⟩
    exact absurd hp (List.not_mem_nil p)
  | cons p rest ih =>
    unfold collectLoop
    cases hout : p.2 with
    | notDone => rfl
    | done r =>
      dsimp only
      rcases hpend with ⟨q, hq, hqnd⟩
      rcases List.mem_cons.mp hq with rfl | hq'
      · rw [hout] at hqnd
        exact FutureOutcome.noConfusion hqnd
      · rw [ih ⟨q, hq', hqnd⟩]
    | raised e =>
      dsimp only
      rcases hpend with ⟨q, hq, hqnd⟩
      rcases List.mem_cons.mp hq with rfl | hq'
      · rw [hout] at hqnd
        exact FutureOutcome.noConfusion hqnd
      · rw [ih ⟨q, hq', hqnd⟩]

/-- The collection loop either returns a result list or raises
`TimeoutError`; it never raises the scope-misuse `RuntimeError`. -/
theorem collectLoop_cases (cfg : ConcurrentConfig)
    (order : List (String × FutureOutcome)) :
    collectLoop cfg order = Except.ok (order.map (collectOne cfg)) ∨
    collectLoop cfg order = Except.error ExecError.timeoutError := by
  by_cases hdone : ∀ p ∈ order, p.2 ≠ FutureOutcome.notDone
  · exact Or.inl (collectLoop_ok cfg order hdone)
  · refine Or.inr (collectLoop_timeout cfg order ?_)
    push_neg at hdone
    rcases hdone with ⟨p, hp, hpnd⟩
    exact ⟨p, hp, hpnd⟩

/-- C1: inside the `with` scope, when every submitted future completes
before the aggregate deadline, `execute_concurrent` returns exactly one
`TaskResult` per submitted symbol — same length, symbols a permutation of
the input, none lost or duplicated — and any wrapper-level exception is
mapped to a Failed result with `attempts = max_retries`. -/
theorem execute_concurrent_no_loss (cfg : ConcurrentConfig)
    (symbols : List String) (order : List (String × FutureOutcome))
    (hperm : (order.map Prod.fst).Perm symbols)
    (hdone : ∀ p ∈ order, p.2 ≠ FutureOutcome.notDone)
    (hsym : ∀ p ∈ order, ∀ r, p.2 = FutureOutcome.done r → r.symbol = p.1) :
    executeConcurrent true cfg order = Except.ok (order.map (collectOne cfg)) ∧
    (order.map (collectOne cfg)).length = symbols.length ∧
    ((order.map (collectOne cfg)).map TaskResult.symbol).Perm symbols ∧
    (∀ p ∈ order, ∀ e, p.2 = FutureOutcome.raised e →
      collectOne cfg p = collectionFailure cfg p.1 e ∧
      (collectionFailure cfg p.1 e).success = false ∧
      (collectionFailure cfg p.1 e).attempts = cfg.max_retries) := by
  have hsymbols : ∀ p ∈ order, (collectOne cfg p).symbol = p.1 := by
    intro p hp
    cases hout : p.2 with
    | done r =>
      unfold collectOne
      rw [hout]
      exact hsym p hp r hout
    | raised e =>
      unfold collectOne
      rw [hout]
      rfl
    | notDone => exact absurd hout (hdone p hp)
  have hmapeq : (order.map (collectOne cfg)).map TaskResult.symbol =
      order.map Prod.fst := by
    rw [List.map_map]
    exact List.map_congr_left hsymbols
  refine ⟨?_, ?_, ?_, ?_⟩
  · show collectLoop cfg order = _
    exact collectLoop_ok cfg order hdone
  · rw [List.length_map]
    rw [← hperm.length_eq, List.length_map]
  · rw [hmapeq]
    exact hperm
  · intro p hp e hre
    refine ⟨?_, rfl, rfl⟩
    unfold collectOne
    rw [hre]

/-- Witness for C1: two futures, one completed normally, one whose wrapper
raised; symbols submitted as `["MSFT", "AAPL"]`. -/
theorem execute_concurrent_no_loss_witness :
    ([("AAPL", FutureOutcome.done
        { symbol := "AAPL", success := true, result := some [], attempts := 1 }),
      ("MSFT", FutureOutcome.raised "boom")].map Prod.fst).Perm
      ["MSFT", "AAPL"] ∧
    (∀ p ∈ [("AAPL", FutureOutcome.done
        { symbol := "AAPL", success := true, result := some [], attempts := 1 }),
      ("MSFT", FutureOutcome.raised "boom")], p.2 ≠ FutureOutcome.notDone) ∧
    (executeConcurrent true { max_retries := 3 }
        [("AAPL", FutureOutcome.done
          { symbol := "AAPL", success := true, result := some [], attempts := 1 }),
         ("MSFT", FutureOutcome.raised "boom")] =
      Except.ok ([("AAPL", FutureOutcome.done
          { symbol := "AAPL", success := true, result := some [], attempts := 1 }),
         ("MSFT", FutureOutcome.raised "boom")].map
          (collectOne { max_retries := 3 })) ∧
     ([("AAPL", FutureOutcome.done
          { symbol := "AAPL", success := true, result := some [], attempts := 1 }),
       ("MSFT", FutureOutcome.raised "boom")].map
        (collectOne { max_retries := 3 })).length = (["MSFT", "AAPL"] : List String).length ∧
     (([("AAPL", FutureOutcome.done
          { symbol := "AAPL", success := true, result := some [], attempts := 1 }),
        ("MSFT", FutureOutcome.raised "boom")].map
         (collectOne { max_retries := 3 })).map TaskResult.symbol).Perm
       ["MSFT", "AAPL"] ∧
     (∀ p ∈ [("AAPL", FutureOutcome.done
          { symbol := "AAPL", success := true, result := some [], attempts := 1 }),
        ("MSFT", FutureOutcome.raised "boom")], ∀ e,
        p.2 = FutureOutcome.raised e →
        collectOne { max_retries := 3 } p =
          collectionFailure { max_retries := 3 } p.1 e ∧
        (collectionFailure { max_retries := 3 } p.1 e).success = false ∧
        (collectionFailure { max_retries := 3 } p.1 e).attempts = 3)) :=
  ⟨by decide, by decide,
   execute_concurrent_no_loss { max_retries := 3 } ["MSFT", "AAPL"]
     [("AAPL", FutureOutcome.done
        { symbol := "AAPL", success := true, result := some [], attempts := 1 }),
      ("MSFT", FutureOutcome.raised "boom")]
     (by decide) (by decide)
     (by
       intro p hp r hr
       rcases List.mem_cons.mp hp with rfl | hp'
       · injection hr with hinj
         subst hinj
         rfl
       · rcases List.mem_cons.mp hp' with rfl | hp''
         · exact FutureOutcome.noConfusion hr
         · exact absurd hp'' (List.not_mem_nil p))⟩

/-- C2 counterexample: a single submitted task still pending at the
aggregate deadline makes `execute_concurrent` raise
`concurrent.futures.TimeoutError` (the `as_completed` iterator's exception
is caught by no handler in the function), instead of returning a list with
a Failed `TaskResult` — the claimed conversion does not happen. -/
theorem execute_concurrent_timeout_counterexample :
    executeConcurrent true {} [("AAPL", FutureOutcome.notDone)] =
      Except.error ExecError.timeoutError := rfl

/-- C2 amended: any task not completed by the aggregate timeout of
`len(tasks) × timeout_per_task` makes `execute_concurrent` raise
`TimeoutError` out of the collection loop; no result list is returned and
no Failed `TaskResult` is synthesized for the unfinished task (conversion
to Failed happens only for wrapper-level exceptions of completed
futures). -/
theorem execute_concurrent_timeout (cfg : ConcurrentConfig)
    (order : List (String × FutureOutcome))
    (hpend : ∃ p ∈ order, p.2 = FutureOutcome.notDone) :
    executeConcurrent true cfg order = Except.error ExecError.timeoutError := by
  show collectLoop cfg order = _
  exact collectLoop_timeout cfg order hpend

/-- Witness for C2 (amended): one completed and one pending future. -/
theorem execute_concurrent_timeout_witness :
    (∃ p ∈ [("AAPL", FutureOutcome.done
        { symbol := "AAPL", success := true, result := some [], attempts := 1 }),
      ("MSFT", FutureOutcome.notDone)], p.2 = FutureOutcome.notDone) ∧
    executeConcurrent true { timeout_per_task := 30 }
      [("AAPL", FutureOutcome.done
        { symbol := "AAPL", success := true, result := some [], attempts := 1 }),
       ("MSFT", FutureOutcome.notDone)] =
      Except.error ExecError.timeoutError :=
  ⟨by decide,
   execute_concurrent_timeout { timeout_per_task := 30 }
     [("AAPL", FutureOutcome.done
        { symbol := "AAPL", success := true, result := some [], attempts := 1 }),
      ("MSFT", FutureOutcome.notDone)]
     (by decide)⟩

/-- C7: calling `execute_concurrent` outside the acquired scope (no executor
held) raises the scope-misuse `RuntimeError` immediately; inside the scope
that error is unreachable (the result is never a context error), and when
every future completes the call returns a result list — individual task
failures never abort the batch. -/
theorem execute_concurrent_scope (cfg : ConcurrentConfig)
    (order : List (String × FutureOutcome)) :
    executeConcurrent false cfg order =
      Except.error (ExecError.contextError contextRequiredMsg) ∧
    isContextError (executeConcurrent true cfg order) = false ∧
    ((∀ p ∈ order, p.2 ≠ FutureOutcome.notDone) →
      executeConcurrent true cfg order =
        Except.ok (order.map (collectOne cfg))) := by
  refine ⟨rfl, ?_, ?_⟩
  · show isContextError (collectLoop cfg order) = false
    rcases collectLoop_cases cfg order with h | h <;> rw [h] <;> rfl
  · intro hdone
    show collectLoop cfg order = _
    exact collectLoop_ok cfg order hdone

/-- Witness for C7: a batch whose only task failed at the wrapper level
still returns a result list, and no context error occurs in scope. -/
theorem execute_concurrent_scope_witness :
    executeConcurrent false { max_retries := 3 }
      [("AAPL", FutureOutcome.raised "boom")] =
      Except.error (ExecError.contextError contextRequiredMsg) ∧
    isContextError (executeConcurrent true { max_retries := 3 }
      [("AAPL", FutureOutcome.raised "boom")]) = false ∧
    executeConcurrent true { max_retries := 3 }
      [("AAPL", FutureOutcome.raised "boom")] =
      Except.ok ([("AAPL", FutureOutcome.raised "boom")].map
        (collectOne { max_retries := 3 })) :=
  ⟨(execute_concurrent_scope { max_retries := 3 }
      [("AAPL", FutureOutcome.raised "boom")]).1,
   (execute_concurrent_scope { max_retries := 3 }
      [("AAPL", FutureOutcome.raised "boom")]).2.1,
   (execute_concurrent_scope { max_retries := 3 }
      [("AAPL", FutureOutcome.raised "boom")]).2.2 (by decide)⟩

end StockBatch
